import Mathlib

/-!
Verification of the decode engine of the python-icns library.

This file shallowly embeds the decoding code of the repository:

* `src/icns/_kaitai_struct/icns.py` — the generated Kaitai Struct reader
  (element headers, the per-type-code payload switch `data_parsed`, the
  ICNS-style PackBits chunk reader, the validation checks);
* `src/icns/element_types.py` — the static type registry;
* `src/icns/api.py` — the high-level API (`IconFamilyElement.parsed`,
  `IconFamily`, the best-element resolver, the RLE join, the pixel
  decoders `IconRGB.to_pil_image` / `IconARGB.to_pil_image`, the
  PNG/JPEG 2000 signature predicates).

Bytes are modelled as `Nat` (values 0..255 in real inputs; none of the
verified properties depend on an upper bound), byte strings as `List Nat`,
and streams as explicit list passing.  Fallible reads return `Except` or
`Option`; each error constructor is named after the condition that raises
the corresponding Python exception at the corresponding source line.
Recursion over streams uses a fuel parameter instantiated with the length
of the input, which strictly exceeds the bytes consumed per step, so the
fueled functions are total and compute by kernel reduction.
-/

deriving instance DecidableEq for Except

namespace IcnsModel

/-- Big-endian unsigned integer of a byte list, as read by
`KaitaiStream.read_u4be` (on a 4-byte list). -/
def u4be (bs : List Nat) : Nat :=
  bs.foldl (fun acc b => acc * 256 + b) 0

/-- Error conditions raised by the decoder.  Each constructor corresponds
to a distinct raise site or exception class in the source:

* `truncatedHeader` — `EOFError` while reading the 4-byte type code or the
  4-byte length of an element or table-of-contents header;
* `invalidLength` — `ValueError` from `read_bytes` on the negative size
  `len_element - 8` when the declared length is below 8;
* `truncatedBody` — `EOFError` while reading the `len_element - 8` body
  bytes of an element;
* `eofError` — `EOFError` while reading a fixed-size field inside a
  payload (bitmap planes, the 4-byte composer version, signature bytes);
* `notAnIconFamily` — `ValidationExprError` from `Icns._read` when the
  root element type code is not the main family code (path `/seq/0`);
* `validationExpr` — `ValidationExprError` from the eof check at the end
  of `IconFamilyElement.data_parsed`;
* `validationNotEqual` — `ValidationNotEqualError` for the ARGB signature
  or the zero prefix of `it32` data;
* `assertionUnhandled` — `AssertionError` from the final branch of
  `IconFamilyElement.parsed` in `api.py`. -/
inductive Err
  | truncatedHeader
  | invalidLength
  | truncatedBody
  | eofError
  | notAnIconFamily
  | validationExpr
  | validationNotEqual
  | assertionUnhandled
deriving DecidableEq

/-- An icon family element as held by `api.IconFamilyElement`: the 4-byte
type code and the raw body bytes (`struct.header.type.as_bytes` and
`struct.data`). -/
structure ElementM where
  type : List Nat
  data : List Nat
deriving DecidableEq

/-- One element decode step, mirroring `Icns.IconFamilyElement._read`:
read a 4-byte type code, a 4-byte big-endian total length `len_element`,
then `len_element - 8` raw body bytes.  Returns the element and the
remaining input. -/
def decodeElement (input : List Nat) : Except Err (ElementM × List Nat) :=
  if 4 ≤ input.length then
    let typeBytes := input.take 4
    let afterType := input.drop 4
    if 4 ≤ afterType.length then
      let len_element := u4be (afterType.take 4)
      let rest := afterType.drop 4
      if len_element < 8 then
        Except.error Err.invalidLength
      else if len_element - 8 ≤ rest.length then
        Except.ok (⟨typeBytes, rest.take (len_element - 8)⟩,
                   rest.drop (len_element - 8))
      else
        Except.error Err.truncatedBody
    else
      Except.error Err.truncatedHeader
  else
    Except.error Err.truncatedHeader

/-! ## ICNS-style PackBits -/

/-- A parsed compression chunk, as in
`Icns.IconFamilyElement.IcnsStylePackbits.Chunk`. -/
inductive Chunk
  | rep (repeated_byte : Nat) (repeat_count : Nat)
  | lit (literal_data : List Nat)
deriving DecidableEq

/-- The chunk loop of `IcnsStylePackbits.chunks` together with
`Chunk._read`: while input remains, read a tag byte; a tag of at least 128
is a repeat chunk followed by one value byte with repeat count
`tag - 125`; otherwise a literal chunk of the following `tag + 1` bytes.
The fuel argument is instantiated with the input length, which bounds the
number of chunks.  A lone trailing tag byte always fails (`EOFError`):
as a repeat chunk it lacks the value byte, and as a literal chunk it
lacks its `tag + 1 ≥ 1` literal bytes, so that case is a single
pattern. -/
def parseChunksF : Nat → List Nat → Option (List Chunk)
  | _, [] => some []
  | 0, _ :: _ => none
  | _ + 1, [_] => none
  | fuel + 1, tag :: b :: rest2 =>
    if 128 ≤ tag then
      (parseChunksF fuel rest2).map (fun cs => Chunk.rep b (tag - 125) :: cs)
    else
      if tag + 1 ≤ (b :: rest2).length then
        (parseChunksF fuel ((b :: rest2).drop (tag + 1))).map
          (fun cs => Chunk.lit ((b :: rest2).take (tag + 1)) :: cs)
      else
        none

/-- The contribution of one chunk to the output, as yielded by
`api._decompress_icns_style_packbits`. -/
def chunkOutput : Chunk → List Nat
  | Chunk.rep b c => List.replicate c b
  | Chunk.lit d => d

/-- Full decompression: parse the chunk list and join the per-chunk
outputs, mirroring `ICNSStylePackbits.uncompressed`.  `none` corresponds
to the `EOFError` raised on an input that ends in the middle of a
chunk. -/
def decompress (data : List Nat) : Option (List Nat) :=
  (parseChunksF data.length data).map (fun cs => (cs.map chunkOutput).flatten)

/-- The decompression contract exactly as the specification words it: the
input is consumed as a sequence of chunks, a tag of at least 128 repeats
the following byte `tag - 125` times, a smaller tag copies the following
`tag + 1` bytes verbatim, and the output concatenates the contributions in
order. -/
inductive RLESpec : List Nat → List Nat → Prop
  | nil : RLESpec [] []
  | rep {tag b : Nat} {rest out : List Nat} :
      128 ≤ tag → RLESpec rest out →
      RLESpec (tag :: b :: rest) (List.replicate (tag - 125) b ++ out)
  | lit {tag : Nat} {d rest out : List Nat} :
      tag < 128 → d.length = tag + 1 → RLESpec rest out →
      RLESpec (tag :: (d ++ rest)) (d ++ out)

/-! ## The type registry (`element_types.py`) -/

/-- Mirrors `element_types.DataType`. -/
inductive DataType
  | icon_family
  | table_of_contents
  | icon_composer_version
  | info_dictionary
  | icon_1_bit_with_mask
  | icon_4_bit
  | icon_8_bit
  | icon_rgb
  | icon_8_bit_mask
  | icon_argb
  | icon_png_jp2_rgb
  | icon_png_jp2
deriving DecidableEq

/-- Mirrors `element_types.Resolution`: width and height in points plus scale. -/
structure Resolution where
  point_width : Nat
  point_height : Nat
  scale : Nat
deriving DecidableEq

/-- Mirrors `Resolution.pixel_width`. -/
def Resolution.pixel_width (r : Resolution) : Nat := r.point_width * r.scale

/-- Mirrors `Resolution.pixel_height`. -/
def Resolution.pixel_height (r : Resolution) : Nat := r.point_height * r.scale

/-- A registry entry.  Entries created with `KnownIconType` in the source
carry a resolution (`resolution = some _`); plain `KnownElementType`
entries carry none.  API code distinguishes the two with `isinstance`. -/
structure KnownElementType where
  typecode : List Nat
  data_type : DataType
  resolution : Option Resolution
deriving DecidableEq

/-- The full static registry, one entry per constant of
`element_types.py`, in file order (the order the class-level
`by_typecode` dictionary is populated in). -/
def registry : List KnownElementType := [
  ⟨[105, 99, 110, 115], DataType.icon_family, none⟩,  -- main_family
  ⟨[116, 105, 108, 101], DataType.icon_family, none⟩,  -- tile_variant_family
  ⟨[111, 118, 101, 114], DataType.icon_family, none⟩,  -- rollover_variant_family
  ⟨[100, 114, 111, 112], DataType.icon_family, none⟩,  -- drop_variant_family
  ⟨[111, 112, 101, 110], DataType.icon_family, none⟩,  -- open_variant_family
  ⟨[111, 100, 114, 112], DataType.icon_family, none⟩,  -- open_drop_variant_family
  ⟨[115, 98, 112, 112], DataType.icon_family, none⟩,  -- sbpp_variant_family
  ⟨[115, 98, 116, 112], DataType.icon_family, none⟩,  -- sidebar_variant_family
  ⟨[115, 108, 99, 116], DataType.icon_family, none⟩,  -- selected_variant_family
  ⟨[253, 217, 47, 168], DataType.icon_family, none⟩,  -- dark_mode_variant_family
  ⟨[84, 79, 67, 32], DataType.table_of_contents, none⟩,  -- table_of_contents
  ⟨[105, 99, 110, 86], DataType.table_of_contents, none⟩,  -- icon_composer_version
  ⟨[105, 110, 102, 111], DataType.info_dictionary, none⟩,  -- info_dictionary
  ⟨[105, 99, 109, 35], DataType.icon_1_bit_with_mask, some ⟨16, 12, 1⟩⟩,  -- icon_16x12x1_with_mask
  ⟨[105, 99, 109, 52], DataType.icon_4_bit, some ⟨16, 12, 1⟩⟩,  -- icon_16x12x4
  ⟨[105, 99, 109, 56], DataType.icon_8_bit, some ⟨16, 12, 1⟩⟩,  -- icon_16x12x8
  ⟨[105, 99, 115, 35], DataType.icon_1_bit_with_mask, some ⟨16, 16, 1⟩⟩,  -- icon_16x16x1_with_mask
  ⟨[105, 99, 115, 52], DataType.icon_4_bit, some ⟨16, 16, 1⟩⟩,  -- icon_16x16x4
  ⟨[105, 99, 115, 56], DataType.icon_8_bit, some ⟨16, 16, 1⟩⟩,  -- icon_16x16x8
  ⟨[105, 115, 51, 50], DataType.icon_rgb, some ⟨16, 16, 1⟩⟩,  -- icon_16x16_rgb
  ⟨[115, 56, 109, 107], DataType.icon_8_bit_mask, some ⟨16, 16, 1⟩⟩,  -- icon_16x16x8_mask
  ⟨[73, 67, 78, 35], DataType.icon_1_bit_with_mask, some ⟨32, 32, 1⟩⟩,  -- icon_32x32x1_with_mask
  ⟨[105, 99, 108, 52], DataType.icon_4_bit, some ⟨32, 32, 1⟩⟩,  -- icon_32x32x4
  ⟨[105, 99, 108, 56], DataType.icon_8_bit, some ⟨32, 32, 1⟩⟩,  -- icon_32x32x8
  ⟨[105, 108, 51, 50], DataType.icon_rgb, some ⟨32, 32, 1⟩⟩,  -- icon_32x32_rgb
  ⟨[108, 56, 109, 107], DataType.icon_8_bit_mask, some ⟨32, 32, 1⟩⟩,  -- icon_32x32x8_mask
  ⟨[105, 99, 104, 35], DataType.icon_1_bit_with_mask, some ⟨48, 48, 1⟩⟩,  -- icon_48x48x1_with_mask
  ⟨[105, 99, 104, 52], DataType.icon_4_bit, some ⟨48, 48, 1⟩⟩,  -- icon_48x48x4
  ⟨[105, 99, 104, 56], DataType.icon_8_bit, some ⟨48, 48, 1⟩⟩,  -- icon_48x48x8
  ⟨[105, 104, 51, 50], DataType.icon_rgb, some ⟨48, 48, 1⟩⟩,  -- icon_48x48_rgb
  ⟨[104, 56, 109, 107], DataType.icon_8_bit_mask, some ⟨48, 48, 1⟩⟩,  -- icon_48x48x8_mask
  ⟨[105, 116, 51, 50], DataType.icon_rgb, some ⟨128, 128, 1⟩⟩,  -- icon_128x128_rgb
  ⟨[116, 56, 109, 107], DataType.icon_8_bit_mask, some ⟨128, 128, 1⟩⟩,  -- icon_128x128x8_mask
  ⟨[105, 99, 48, 52], DataType.icon_argb, some ⟨16, 16, 1⟩⟩,  -- icon_16x16_argb
  ⟨[105, 99, 115, 98], DataType.icon_argb, some ⟨18, 18, 1⟩⟩,  -- icon_18x18_argb
  ⟨[105, 99, 48, 53], DataType.icon_argb, some ⟨32, 32, 1⟩⟩,  -- icon_32x32_argb
  ⟨[105, 99, 112, 52], DataType.icon_png_jp2_rgb, some ⟨16, 16, 1⟩⟩,  -- icon_16x16_png_jp2_rgb
  ⟨[105, 99, 112, 53], DataType.icon_png_jp2_rgb, some ⟨32, 32, 1⟩⟩,  -- icon_32x32_png_jp2_rgb
  ⟨[105, 99, 112, 54], DataType.icon_png_jp2, some ⟨64, 64, 1⟩⟩,  -- icon_64x64_png_jp2
  ⟨[105, 99, 48, 55], DataType.icon_png_jp2, some ⟨128, 128, 1⟩⟩,  -- icon_128x128_png_jp2
  ⟨[105, 99, 48, 56], DataType.icon_png_jp2, some ⟨256, 256, 1⟩⟩,  -- icon_256x256_png_jp2
  ⟨[105, 99, 48, 57], DataType.icon_png_jp2, some ⟨512, 512, 1⟩⟩,  -- icon_512x512_png_jp2
  ⟨[105, 99, 49, 49], DataType.icon_png_jp2, some ⟨16, 16, 2⟩⟩,  -- icon_16x16_at_2x_png_jp2
  ⟨[105, 99, 115, 66], DataType.icon_png_jp2, some ⟨18, 18, 2⟩⟩,  -- icon_18x18_at_2x_png_jp2
  ⟨[105, 99, 49, 50], DataType.icon_png_jp2, some ⟨32, 32, 2⟩⟩,  -- icon_32x32_at_2x_png_jp2
  ⟨[105, 99, 49, 51], DataType.icon_png_jp2, some ⟨128, 128, 2⟩⟩,  -- icon_128x128_at_2x_png_jp2
  ⟨[105, 99, 49, 52], DataType.icon_png_jp2, some ⟨256, 256, 2⟩⟩,  -- icon_256x256_at_2x_png_jp2
  ⟨[105, 99, 49, 48], DataType.icon_png_jp2, some ⟨512, 512, 2⟩⟩]  -- icon_512x512_at_2x_png_jp2

/-- Mirrors `KnownElementType.by_typecode.get(tc)`: first (unique) registry entry
with the given type code. -/
def lookupTypecode (tc : List Nat) : Option KnownElementType :=
  registry.find? (fun k => decide (k.typecode = tc))

/-! ## Payload structures and the `data_parsed` switch -/

/-- The possible results of `Icns.IconFamilyElement.data_parsed`, one
constructor per Kaitai data class plus `unknownBytes` for the generic
byte passthrough produced by the final `else` branch.  (That branch
constructs a `BytesWithIo` over the body substream; the helper class is
not under `src/`, but all the API uses of it read its `data` attribute,
which is the full raw body, so it is embedded as the body byte list.) -/
inductive KSData
  | family (elements : List ElementM)
  | toc (element_headers : List (List Nat × Nat))
  | composerVersion (raw : List Nat)
  | infoDict (archived_data : List Nat)
  | x1AndMask (width height : Nat) (icon mask : List Nat)
  | x4 (width height : Nat) (icon : List Nat)
  | x8 (width height : Nat) (icon : List Nat)
  | rgb (width height : Nat) (compressed_data : List Nat)
  | x8Mask (width height : Nat) (mask : List Nat)
  | rgbZeroPrefixed (width height : Nat) (compressed_data : List Nat)
  | argb (width height : Nat) (compressed_data : List Nat)
  | pngJp2 (point_width point_height scale : Nat) (png_or_jp2_data : List Nat)
  | unknownBytes (data : List Nat)
deriving DecidableEq

/-- Mirrors `IconFamilyData._read`: read elements from the body until eof.  Fuel
is instantiated with the body length; each element consumes at least 8
bytes. -/
def parseIconFamilyElementsF : Nat → List Nat → Except Err (List ElementM)
  | _, [] => Except.ok []
  | 0, _ :: _ => Except.error Err.eofError
  | fuel + 1, b :: input =>
    match decodeElement (b :: input) with
    | Except.error e => Except.error e
    | Except.ok (elem, rest) =>
      match parseIconFamilyElementsF fuel rest with
      | Except.error e => Except.error e
      | Except.ok es => Except.ok (elem :: es)

/-- Mirrors `IconFamilyData._read` applied to a body. -/
def parseIconFamilyData (body : List Nat) : Except Err KSData :=
  (parseIconFamilyElementsF body.length body).map KSData.family

/-- Mirrors `TableOfContentsData._read`: read bare 8-byte headers (type code plus
length, no body) until eof. -/
def parseTocHeadersF : Nat → List Nat → Except Err (List (List Nat × Nat))
  | _, [] => Except.ok []
  | 0, _ :: _ => Except.error Err.eofError
  | fuel + 1, b :: input =>
    let bs := b :: input
    if 4 ≤ bs.length then
      let t := bs.take 4
      let r := bs.drop 4
      if 4 ≤ r.length then
        match parseTocHeadersF fuel (r.drop 4) with
        | Except.error e => Except.error e
        | Except.ok hs => Except.ok ((t, u4be (r.take 4)) :: hs)
      else
        Except.error Err.truncatedHeader
    else
      Except.error Err.truncatedHeader

/-- Mirrors `TableOfContentsData._read` applied to a body. -/
def parseTableOfContents (body : List Nat) : Except Err KSData :=
  (parseTocHeadersF body.length body).map KSData.toc

/-- Mirrors `IconComposerVersionData._read`: `read_f4be` consumes exactly 4 bytes.
The 4 raw bytes are kept (their IEEE-754 interpretation is outside the
decoder); any further body bytes stay unread. -/
def parseIconComposerVersion (body : List Nat) : Except Err KSData :=
  if 4 ≤ body.length then
    Except.ok (KSData.composerVersion (body.take 4))
  else
    Except.error Err.eofError

/-- Mirrors `InfoDictionaryData._read`: `read_bytes_full`. -/
def parseInfoDictionary (body : List Nat) : Except Err KSData :=
  Except.ok (KSData.infoDict body)

/-- Mirrors `IconX1AndMaskData._read`: a `width * height / 8` byte icon plane
followed by an equally sized mask plane. -/
def parseIconX1AndMask (w h : Nat) (body : List Nat) : Except Err KSData :=
  let n := w * h / 8
  if n ≤ body.length then
    let icon := body.take n
    let rest := body.drop n
    if n ≤ rest.length then
      Except.ok (KSData.x1AndMask w h icon (rest.take n))
    else
      Except.error Err.eofError
  else
    Except.error Err.eofError

/-- Mirrors `IconX4Data._read`: `width * height / 2` bytes. -/
def parseIconX4 (w h : Nat) (body : List Nat) : Except Err KSData :=
  let n := w * h / 2
  if n ≤ body.length then
    Except.ok (KSData.x4 w h (body.take n))
  else
    Except.error Err.eofError

/-- Mirrors `IconX8Data._read`: `width * height` bytes. -/
def parseIconX8 (w h : Nat) (body : List Nat) : Except Err KSData :=
  let n := w * h
  if n ≤ body.length then
    Except.ok (KSData.x8 w h (body.take n))
  else
    Except.error Err.eofError

/-- Mirrors `IconX8MaskData._read`: `width * height` bytes. -/
def parseIconX8Mask (w h : Nat) (body : List Nat) : Except Err KSData :=
  let n := w * h
  if n ≤ body.length then
    Except.ok (KSData.x8Mask w h (body.take n))
  else
    Except.error Err.eofError

/-- Mirrors `IconRgbData._read`: the whole remaining body is the raw compressed
stream (`IcnsStylePackbits` stores it; chunk parsing is lazy). -/
def parseIconRgb (w h : Nat) (body : List Nat) : Except Err KSData :=
  Except.ok (KSData.rgb w h body)

/-- Mirrors `IconRgbZeroPrefixedData._read`: 4 bytes that must all be zero,
then `IconRgbData` over the rest. -/
def parseIconRgbZeroPrefixed (w h : Nat) (body : List Nat) : Except Err KSData :=
  if 4 ≤ body.length then
    if body.take 4 = [0, 0, 0, 0] then
      Except.ok (KSData.rgbZeroPrefixed w h (body.drop 4))
    else
      Except.error Err.validationNotEqual
  else
    Except.error Err.eofError

/-- Mirrors `IconArgbData._read`: the 4-byte literal signature `ARGB`, then the
raw compressed stream. -/
def parseIconArgb (w h : Nat) (body : List Nat) : Except Err KSData :=
  if 4 ≤ body.length then
    if body.take 4 = [65, 82, 71, 66] then
      Except.ok (KSData.argb w h (body.drop 4))
    else
      Except.error Err.validationNotEqual
  else
    Except.error Err.eofError

/-- Mirrors `IconPngJp2Data._read`: `read_bytes_full`. -/
def parseIconPngJp2 (pw ph scale : Nat) (body : List Nat) : Except Err KSData :=
  Except.ok (KSData.pngJp2 pw ph scale body)

/-- The switch of `IconFamilyElement.data_parsed`, branch for branch in
source order.  The source dispatches on `header.type.as_enum`, the
big-endian `u4` of the 4 type code bytes, which is equivalent to
comparing the 4-byte lists themselves. -/
def dispatchTable : List (List Nat × (List Nat → Except Err KSData)) := [
  ([105, 99, 104, 52], parseIconX4 48 48),  -- icon_48x48x4
  ([105, 99, 109, 56], parseIconX8 16 12),  -- icon_16x12x8
  ([116, 56, 109, 107], parseIconX8Mask 128 128),  -- icon_128x128x8_mask
  ([73, 67, 78, 35], parseIconX1AndMask 32 32),  -- icon_32x32x1_with_mask
  ([104, 56, 109, 107], parseIconX8Mask 48 48),  -- icon_48x48x8_mask
  ([105, 104, 51, 50], parseIconRgb 48 48),  -- icon_48x48_rgb
  ([105, 99, 109, 35], parseIconX1AndMask 16 12),  -- icon_16x12x1_with_mask
  ([84, 79, 67, 32], parseTableOfContents),  -- table_of_contents
  ([105, 99, 49, 52], parseIconPngJp2 256 256 2),  -- icon_256x256_at_2x_png_jp2
  ([105, 99, 49, 49], parseIconPngJp2 16 16 2),  -- icon_16x16_at_2x_png_jp2
  ([105, 99, 48, 53], parseIconArgb 32 32),  -- icon_32x32_argb
  ([105, 99, 115, 35], parseIconX1AndMask 16 16),  -- icon_16x16x1_with_mask
  ([115, 108, 99, 116], parseIconFamilyData),  -- selected_variant_family
  ([105, 99, 48, 55], parseIconPngJp2 128 128 1),  -- icon_128x128_png_jp2
  ([105, 99, 115, 66], parseIconPngJp2 18 18 2),  -- icon_18x18_at_2x_png_jp2
  ([105, 99, 48, 57], parseIconPngJp2 512 512 1),  -- icon_512x512_png_jp2
  ([105, 115, 51, 50], parseIconRgb 16 16),  -- icon_16x16_rgb
  ([105, 99, 109, 52], parseIconX4 16 12),  -- icon_16x12x4
  ([115, 98, 112, 112], parseIconFamilyData),  -- sbpp_variant_family
  ([111, 112, 101, 110], parseIconFamilyData),  -- open_variant_family
  ([105, 99, 112, 53], parseIconPngJp2 32 32 1),  -- icon_32x32_png_jp2
  ([115, 98, 116, 112], parseIconFamilyData),  -- sidebar_variant_family
  ([105, 99, 48, 56], parseIconPngJp2 256 256 1),  -- icon_256x256_png_jp2
  ([105, 99, 108, 52], parseIconX4 32 32),  -- icon_32x32x4
  ([105, 110, 102, 111], parseInfoDictionary),  -- info_dictionary
  ([105, 99, 115, 52], parseIconX4 16 16),  -- icon_16x16x4
  ([105, 99, 49, 51], parseIconPngJp2 128 128 2),  -- icon_128x128_at_2x_png_jp2
  ([105, 99, 112, 52], parseIconPngJp2 16 16 1),  -- icon_16x16_png_jp2
  ([105, 99, 104, 56], parseIconX8 48 48),  -- icon_48x48x8
  ([105, 99, 115, 56], parseIconX8 16 16),  -- icon_16x16x8
  ([105, 108, 51, 50], parseIconRgb 32 32),  -- icon_32x32_rgb
  ([105, 99, 108, 56], parseIconX8 32 32),  -- icon_32x32x8
  ([111, 118, 101, 114], parseIconFamilyData),  -- rollover_variant_family
  ([115, 56, 109, 107], parseIconX8Mask 16 16),  -- icon_16x16x8_mask
  ([105, 99, 112, 54], parseIconPngJp2 64 64 1),  -- icon_64x64_png_jp2
  ([105, 99, 115, 98], parseIconArgb 18 18),  -- icon_18x18_argb
  ([108, 56, 109, 107], parseIconX8Mask 32 32),  -- icon_32x32x8_mask
  ([105, 99, 48, 52], parseIconArgb 16 16),  -- icon_16x16_argb
  ([105, 99, 49, 48], parseIconPngJp2 512 512 2),  -- icon_512x512_at_2x_png_jp2
  ([111, 100, 114, 112], parseIconFamilyData),  -- open_drop_variant_family
  ([105, 116, 51, 50], parseIconRgbZeroPrefixed 128 128),  -- icon_128x128_rgb
  ([105, 99, 104, 35], parseIconX1AndMask 48 48),  -- icon_48x48x1_with_mask
  ([105, 99, 110, 86], parseIconComposerVersion),  -- icon_composer_version
  ([100, 114, 111, 112], parseIconFamilyData),  -- drop_variant_family
  ([253, 217, 47, 168], parseIconFamilyData),  -- dark_mode_variant_family
  ([105, 99, 49, 50], parseIconPngJp2 32 32 2),  -- icon_32x32_at_2x_png_jp2
  ([105, 99, 110, 115], parseIconFamilyData),  -- main_family
  ([116, 105, 108, 101], parseIconFamilyData)]  -- tile_variant_family

/-- Mirrors `IconFamilyElement.data_parsed` for a nested element: run the branch
selected by the type code, or the `BytesWithIo` passthrough when no
branch matches.  (The trailing `_io.is_eof` validation of the property
reads the stream the element was read from; for nested elements that
stream is always at eof by the time the lazy property is first accessed,
so it appears only in `from_stream` below, where it checks the top-level
input.) -/
def elementDataParsed (tc : List Nat) (body : List Nat) : Except Err KSData :=
  match dispatchTable.find? (fun p => decide (p.1 = tc)) with
  | some p => p.2 body
  | none => Except.ok (KSData.unknownBytes body)

/-! ## The API layer (`api.py`) -/

/-- Mirrors `IconFamily` as constructed by `IconFamily.__init__`: the ordered
`elements` dictionary plus the `elements_by_resolution_and_type` index, a
`defaultdict` of per-resolution dictionaries.  Both dictionaries are
modelled as association lists in insertion order. -/
structure IconFamilyS where
  elements : List (List Nat × ElementM)
  elements_by_resolution_and_type :
    List (Resolution × List (DataType × ElementM))
deriving DecidableEq

/-- Python dictionary assignment `d[k] = v`: replace in place if the key
exists (keeping its position), else append. -/
def dictInsert {κ α : Type} [DecidableEq κ] :
    List (κ × α) → κ → α → List (κ × α)
  | [], k, v => [(k, v)]
  | (k1, v1) :: rest, k, v =>
    if k1 = k then (k, v) :: rest else (k1, v1) :: dictInsert rest k v

/-- Python dictionary lookup `d.get(k)`. -/
def assocGet {κ α : Type} [DecidableEq κ] (m : List (κ × α)) (k : κ) :
    Option α :=
  (m.find? (fun p => decide (p.1 = k))).map Prod.snd

/-- Mirrors `self.elements_by_resolution_and_type[res][dt] = e` on a
`defaultdict(dict)`: create an empty inner dictionary for a new
resolution (appended at the end), then assign into it. -/
def indexInsert (idx : List (Resolution × List (DataType × ElementM)))
    (res : Resolution) (dt : DataType) (e : ElementM) :
    List (Resolution × List (DataType × ElementM)) :=
  match assocGet idx res with
  | some inner => dictInsert idx res (dictInsert inner dt e)
  | none => idx ++ [(res, [(dt, e)])]

/-- Mirrors `element.known_type`, assigned in `IconFamilyElement.__init__` from
the registry. -/
def known_type (e : ElementM) : Option KnownElementType :=
  lookupTypecode e.type

/-- Mirrors `IconFamily.__init__`: store the elements and build the
resolution-and-type index from the elements that have a `KnownIconType`
(a registry entry carrying a resolution), in insertion order. -/
def mkIconFamily (elements : List (List Nat × ElementM)) : IconFamilyS :=
  { elements := elements
    elements_by_resolution_and_type :=
      (elements.map Prod.snd).foldl (fun idx e =>
        match known_type e with
        | some kt =>
          match kt.resolution with
          | some res => indexInsert idx res kt.data_type e
          | none => idx
        | none => idx) [] }

/-- Mirrors `IconFamily.from_ks`: wrap each Kaitai element and key it by type
code in an ordered dictionary (a duplicate type code silently replaces
the earlier entry). -/
def buildElements (structs : List ElementM) : List (List Nat × ElementM) :=
  structs.foldl (fun m e => dictInsert m e.type e) []

/-- The type code of the main family, `b"icns"`. -/
def mainFamilyCode : List Nat := [105, 99, 110, 115]

/-- Mirrors `IconFamily.from_stream`: `Icns._read` decodes the root element and
validates its type code against `main_family`; then `root_element.
data_parsed` parses the body and finally validates that the stream the
root element was read from — the whole input — is at eof; then
`IconFamily.from_ks` builds the family. -/
def from_stream (input : List Nat) : Except Err IconFamilyS :=
  match decodeElement input with
  | Except.error e => Except.error e
  | Except.ok (elem, rest) =>
    if elem.type = mainFamilyCode then
      match elementDataParsed elem.type elem.data with
      | Except.error e => Except.error e
      | Except.ok ksd =>
        if rest.isEmpty then
          match ksd with
          | KSData.family es => Except.ok (mkIconFamily (buildElements es))
          | _ => Except.error Err.assertionUnhandled
        else
          Except.error Err.validationExpr
    else
      Except.error Err.notAnIconFamily

/-- The parsed element values produced by `IconFamilyElement.parsed`, one
constructor per `ParsedElement` subclass of `api.py`.  RGB and ARGB
payloads keep the raw compressed stream, as `ICNSStylePackbits` does. -/
inductive ParsedElementM
  | iconFamily (fam : IconFamilyS)
  | tableOfContents (entries : List (List Nat × Nat))
  | iconComposerVersion (raw : List Nat)
  | infoDictionary (archived_data : List Nat)
  | icon1BitAndMask (resolution : Resolution) (icon_data mask_data : List Nat)
  | icon4Bit (resolution : Resolution) (icon_data : List Nat)
  | icon8Bit (resolution : Resolution) (icon_data : List Nat)
  | iconRGB (resolution : Resolution) (rgb_data : List Nat)
  | icon8BitMask (resolution : Resolution) (mask_data : List Nat)
  | iconARGB (resolution : Resolution) (argb_data : List Nat)
  | iconPNGOrJPEG2000 (resolution : Resolution) (data : List Nat)
deriving DecidableEq

/-- Mirrors `IconFamilyElement.parsed`: compute `data_parsed`, then convert by
the `isinstance` chain of `api.py` lines 74-99.  The chain has no branch
for the `BytesWithIo` passthrough of unrecognized type codes, so that
case falls into the final `raise AssertionError`. -/
def parsedElement (tc : List Nat) (body : List Nat) :
    Except Err ParsedElementM :=
  match elementDataParsed tc body with
  | Except.error e => Except.error e
  | Except.ok ksd =>
    match ksd with
    | KSData.family es =>
      Except.ok (ParsedElementM.iconFamily (mkIconFamily (buildElements es)))
    | KSData.toc hs => Except.ok (ParsedElementM.tableOfContents hs)
    | KSData.composerVersion raw =>
      Except.ok (ParsedElementM.iconComposerVersion raw)
    | KSData.infoDict d => Except.ok (ParsedElementM.infoDictionary d)
    | KSData.x1AndMask w h icon mask =>
      Except.ok (ParsedElementM.icon1BitAndMask ⟨w, h, 1⟩ icon mask)
    | KSData.x4 w h icon => Except.ok (ParsedElementM.icon4Bit ⟨w, h, 1⟩ icon)
    | KSData.x8 w h icon => Except.ok (ParsedElementM.icon8Bit ⟨w, h, 1⟩ icon)
    | KSData.rgb w h comp => Except.ok (ParsedElementM.iconRGB ⟨w, h, 1⟩ comp)
    | KSData.x8Mask w h mask =>
      Except.ok (ParsedElementM.icon8BitMask ⟨w, h, 1⟩ mask)
    | KSData.rgbZeroPrefixed w h comp =>
      Except.ok (ParsedElementM.iconRGB ⟨w, h, 1⟩ comp)
    | KSData.argb w h comp =>
      Except.ok (ParsedElementM.iconARGB ⟨w, h, 1⟩ comp)
    | KSData.pngJp2 pw ph s d =>
      Except.ok (ParsedElementM.iconPNGOrJPEG2000 ⟨pw, ph, s⟩ d)
    | KSData.unknownBytes _ => Except.error Err.assertionUnhandled

/-! ## The resolver (`IconFamily._best_element_for_resolution`) -/

/-- The `KeyError` raised when no requested data type is available. -/
inductive LookupErr
  | keyError
deriving DecidableEq

/-- Mirrors `defaultdict.__getitem__`: return the inner dictionary for the key,
inserting a fresh empty one (at the end) when the key is missing.
Returns the inner dictionary together with the possibly grown outer
dictionary. -/
def ddGetItem (idx : List (Resolution × List (DataType × ElementM)))
    (res : Resolution) :
    List (DataType × ElementM) × List (Resolution × List (DataType × ElementM)) :=
  match assocGet idx res with
  | some inner => (inner, idx)
  | none => ([], idx ++ [(res, [])])

/-- Python `max(xs, key=k)` for a nonempty list: the first element whose
key is maximal. -/
def maxByKey {α : Type} (key : α → Nat) : List α → Option α
  | [] => none
  | x :: xs => some (xs.foldl (fun acc y => if key acc < key y then y else acc) x)

/-- Mirrors `element_types.ICON_TYPE_QUALITIES`, in dictionary insertion order. -/
def ICON_TYPE_QUALITIES : List (DataType × Nat) := [
  (DataType.icon_1_bit_with_mask, 1),
  (DataType.icon_4_bit, 2),
  (DataType.icon_8_bit, 3),
  (DataType.icon_rgb, 4),
  (DataType.icon_argb, 5),
  (DataType.icon_png_jp2_rgb, 6),
  (DataType.icon_png_jp2, 7)]

/-- Mirrors `element_types.MASK_TYPE_QUALITIES`. -/
def MASK_TYPE_QUALITIES : List (DataType × Nat) := [
  (DataType.icon_1_bit_with_mask, 1),
  (DataType.icon_8_bit_mask, 2)]

/-- Mirrors `IconFamily._best_element_for_resolution`: index into the
`defaultdict` (which may grow it), intersect the ranking keys with the
available data types, raise `KeyError` if nothing matches, else return
the element of the type with the highest quality number.  The Python
`max` runs over a set; since quality numbers within one ranking are
distinct, the maximum is unique and the iteration order is immaterial —
the ranking key order is used here.  Returns the result together with
the possibly mutated family. -/
def best_element_for_resolution (fam : IconFamilyS) (res : Resolution)
    (ranking : List (DataType × Nat)) :
    Except LookupErr ElementM × IconFamilyS :=
  let pair := ddGetItem fam.elements_by_resolution_and_type res
  let elements_for_resolution_by_type := pair.1
  let fam2 : IconFamilyS :=
    { fam with elements_by_resolution_and_type := pair.2 }
  let available_matching_types :=
    (ranking.map Prod.fst).filter
      (fun dt => (assocGet elements_for_resolution_by_type dt).isSome)
  (match maxByKey (fun dt => (assocGet ranking dt).getD 0)
      available_matching_types with
   | none => Except.error LookupErr.keyError
   | some best =>
     match assocGet elements_for_resolution_by_type best with
     | some e => Except.ok e
     | none => Except.error LookupErr.keyError,
   fam2)

/-- Mirrors `IconFamily.icon_element_for_resolution`. -/
def icon_element_for_resolution (fam : IconFamilyS) (res : Resolution) :
    Except LookupErr ElementM × IconFamilyS :=
  best_element_for_resolution fam res ICON_TYPE_QUALITIES

/-- Mirrors `IconFamily.mask_element_for_resolution`. -/
def mask_element_for_resolution (fam : IconFamilyS) (res : Resolution) :
    Except LookupErr ElementM × IconFamilyS :=
  best_element_for_resolution fam res MASK_TYPE_QUALITIES

/-- The element stored in the index for a resolution and data type: the
observable content of `elements_by_resolution_and_type` (a missing
resolution and an empty inner dictionary are both seen as absence). -/
def resolvedAt (fam : IconFamilyS) (res : Resolution) (dt : DataType) :
    Option ElementM :=
  assocGet ((assocGet fam.elements_by_resolution_and_type res).getD []) dt

/-! ## Pixel decoders for RGB and ARGB bitmaps -/

/-- Errors of the bitmap-to-image conversion:
`truncatedCompressedData` for the `EOFError` of chunk parsing, and
`imageDataLengthMismatch` for the `ValueError` of
`PIL.Image.frombytes`. -/
inductive RenderErr
  | truncatedCompressedData
  | imageDataLengthMismatch
deriving DecidableEq

/-- Boundary model of `PIL.Image.frombytes` in mode `L` for a
`width x height` image with the raw decoder: the byte string must have
exactly `width * height` bytes (one per pixel, row-major), anything else
raises `ValueError`. -/
def frombytesL (w h : Nat) (data : List Nat) : Except RenderErr (List Nat) :=
  if data.length = w * h then Except.ok data
  else Except.error RenderErr.imageDataLengthMismatch

/-- Mirrors `IconRGB.to_pil_image` (without a mask) after decompression: slice
the decompressed bytes into three `channel_length`-byte planes at offsets
0, `channel_length` and `2 * channel_length`, and build one 8-bit image
per plane; `PIL.Image.merge` then pairs the planes pixel by pixel. -/
def iconRGBToImage (rgb_data : List Nat) (w h : Nat) :
    Except RenderErr (List Nat × List Nat × List Nat) :=
  let channel_length := w * h
  let r_data := rgb_data.take channel_length
  let g_data := (rgb_data.drop channel_length).take channel_length
  let b_data := (rgb_data.drop (2 * channel_length)).take channel_length
  match frombytesL w h r_data with
  | Except.error e => Except.error e
  | Except.ok r =>
    match frombytesL w h g_data with
    | Except.error e => Except.error e
    | Except.ok g =>
      match frombytesL w h b_data with
      | Except.error e => Except.error e
      | Except.ok b => Except.ok (r, g, b)

/-- Mirrors `IconARGB.to_pil_image` after decompression: four planes at offsets
0, `c`, `2c`, `3c` holding alpha, red, green and blue; the merge into an
RGBA image orders the channels red, green, blue, alpha. -/
def iconARGBToImage (argb_data : List Nat) (w h : Nat) :
    Except RenderErr (List Nat × List Nat × List Nat × List Nat) :=
  let channel_length := w * h
  let a_data := argb_data.take channel_length
  let r_data := (argb_data.drop channel_length).take channel_length
  let g_data := (argb_data.drop (2 * channel_length)).take channel_length
  let b_data := (argb_data.drop (3 * channel_length)).take channel_length
  match frombytesL w h a_data with
  | Except.error e => Except.error e
  | Except.ok a =>
    match frombytesL w h r_data with
    | Except.error e => Except.error e
    | Except.ok r =>
      match frombytesL w h g_data with
      | Except.error e => Except.error e
      | Except.ok g =>
        match frombytesL w h b_data with
        | Except.error e => Except.error e
        | Except.ok b => Except.ok (r, g, b, a)

/-- The full RGB pipeline of `IconRGB.to_pil_image`: decompress the
stored stream, then slice and merge. -/
def iconRGBRender (compressed : List Nat) (w h : Nat) :
    Except RenderErr (List Nat × List Nat × List Nat) :=
  match decompress compressed with
  | none => Except.error RenderErr.truncatedCompressedData
  | some u => iconRGBToImage u w h

/-- The full ARGB pipeline of `IconARGB.to_pil_image`. -/
def iconARGBRender (compressed : List Nat) (w h : Nat) :
    Except RenderErr (List Nat × List Nat × List Nat × List Nat) :=
  match decompress compressed with
  | none => Except.error RenderErr.truncatedCompressedData
  | some u => iconARGBToImage u w h

/-- The (r, g, b) value of the pixel at row-major position `i` of a
merged RGB image. -/
def rgbPixel (img : List Nat × List Nat × List Nat) (i : Nat) :
    Nat × Nat × Nat :=
  (img.1.getD i 0, img.2.1.getD i 0, img.2.2.getD i 0)

/-- The (r, g, b, a) value of the pixel at row-major position `i` of a
merged RGBA image. -/
def argbPixel (img : List Nat × List Nat × List Nat × List Nat) (i : Nat) :
    Nat × Nat × Nat × Nat :=
  (img.1.getD i 0, img.2.1.getD i 0, img.2.2.1.getD i 0, img.2.2.2.getD i 0)

/-! ## PNG / JPEG 2000 signature predicates (`IconPNGOrJPEG2000`) -/

/-- Mirrors `IconPNGOrJPEG2000.is_png`: the data starts with the 8-byte PNG
signature. -/
def is_png (data : List Nat) : Bool :=
  [137, 80, 78, 71, 13, 10, 26, 10].isPrefixOf data

/-- Mirrors `IconPNGOrJPEG2000.is_jpeg_2000`: the data starts with the 12-byte
JPEG 2000 signature. -/
def is_jpeg_2000 (data : List Nat) : Bool :=
  [0, 0, 0, 12, 106, 80, 32, 32, 13, 10, 135, 10].isPrefixOf data

/-! ## Lemmas about the RLE decompressor -/

/-- Unfolding equation for `parseChunksF` on an input with at least two
remaining bytes. -/
theorem parseChunksF_succ_eq (fuel tag b : Nat) (rest2 : List Nat) :
    parseChunksF (fuel + 1) (tag :: b :: rest2) =
      if 128 ≤ tag then
        (parseChunksF fuel rest2).map (fun cs => Chunk.rep b (tag - 125) :: cs)
      else
        if tag + 1 ≤ (b :: rest2).length then
          (parseChunksF fuel ((b :: rest2).drop (tag + 1))).map
            (fun cs => Chunk.lit ((b :: rest2).take (tag + 1)) :: cs)
        else none := rfl

/-- Adding fuel beyond the input length does not change chunk parsing. -/
theorem parseChunksF_fuel_invariant :
    ∀ (f f2 : Nat) (input : List Nat), input.length ≤ f → f ≤ f2 →
      parseChunksF f2 input = parseChunksF f input := by
  intro f
  induction f with
  | zero =>
    intro f2 input hlen _
    have : input = [] := List.length_eq_zero.mp (Nat.le_zero.mp hlen)
    subst this
    cases f2 <;> simp [parseChunksF]
  | succ f ih =>
    intro f2 input hlen hle
    obtain ⟨g, rfl⟩ : ∃ g, f2 = g + 1 := ⟨f2 - 1, by omega⟩
    match input with
    | [] => simp [parseChunksF]
    | [tag] => simp [parseChunksF]
    | tag :: b :: rest2 =>
      simp only [parseChunksF]
      by_cases h128 : 128 ≤ tag
      · rw [if_pos h128, if_pos h128]
        have hlen2 : rest2.length ≤ f := by
          simp only [List.length_cons] at hlen; omega
        rw [ih g rest2 hlen2 (by omega)]
      · rw [if_neg h128, if_neg h128]
        by_cases hl : tag + 1 ≤ (b :: rest2).length
        · rw [if_pos hl, if_pos hl]
          have hlen2 : ((b :: rest2).drop (tag + 1)).length ≤ f := by
            simp only [List.length_drop, List.length_cons] at hlen ⊢
            omega
          rw [ih g ((b :: rest2).drop (tag + 1)) hlen2 (by omega)]
        · rw [if_neg hl, if_neg hl]

/-- Soundness of chunk parsing against the specification relation: a
successful parse joined chunk by chunk is related to the input by
`RLESpec`. -/
theorem parseChunksF_sound :
    ∀ (f : Nat) (input : List Nat) (cs : List Chunk), input.length ≤ f →
      parseChunksF f input = some cs →
      RLESpec input ((cs.map chunkOutput).flatten) := by
  intro f
  induction f with
  | zero =>
    intro input cs hlen hp
    have : input = [] := List.length_eq_zero.mp (Nat.le_zero.mp hlen)
    subst this
    simp only [parseChunksF, Option.some.injEq] at hp
    subst hp
    exact RLESpec.nil
  | succ f ih =>
    intro input cs hlen hp
    match input, hp with
    | [], hp =>
      simp only [parseChunksF, Option.some.injEq] at hp
      subst hp
      exact RLESpec.nil
    | [tag], hp => exact Option.noConfusion hp
    | tag :: b :: rest2, hp =>
      simp only [parseChunksF] at hp
      by_cases h128 : 128 ≤ tag
      · rw [if_pos h128] at hp
        cases hrec : parseChunksF f rest2 with
        | none => rw [hrec] at hp; exact Option.noConfusion hp
        | some cs2 =>
          rw [hrec] at hp
          simp only [Option.map_some', Option.some.injEq] at hp
          subst hp
          have hlen2 : rest2.length ≤ f := by
            simp only [List.length_cons] at hlen; omega
          simpa [chunkOutput] using
            RLESpec.rep h128 (ih rest2 cs2 hlen2 hrec)
      · rw [if_neg h128] at hp
        by_cases hl : tag + 1 ≤ (b :: rest2).length
        · rw [if_pos hl] at hp
          cases hrec : parseChunksF f ((b :: rest2).drop (tag + 1)) with
          | none => rw [hrec] at hp; exact Option.noConfusion hp
          | some cs2 =>
            rw [hrec] at hp
            simp only [Option.map_some', Option.some.injEq] at hp
            subst hp
            have hlen2 : ((b :: rest2).drop (tag + 1)).length ≤ f := by
              simp only [List.length_drop, List.length_cons] at hlen ⊢
              omega
            have hsplit : tag :: b :: rest2 =
                tag :: ((b :: rest2).take (tag + 1) ++
                  (b :: rest2).drop (tag + 1)) := by
              rw [List.take_append_drop]
            rw [hsplit]
            have htl : ((b :: rest2).take (tag + 1)).length = tag + 1 := by
              rw [List.length_take]
              simp only [List.length_cons] at hl ⊢
              omega
            simpa [chunkOutput] using
              RLESpec.lit (Nat.lt_of_not_le h128) htl
                (ih ((b :: rest2).drop (tag + 1)) cs2 hlen2 hrec)
        · rw [if_neg hl] at hp
          exact Option.noConfusion hp

/-- Completeness: any pair related by `RLESpec` is produced by chunk
parsing with any adequate amount of fuel. -/
theorem RLESpec_complete {input output : List Nat} (hspec : RLESpec input output) :
    ∀ f, input.length ≤ f →
      ∃ cs, parseChunksF f input = some cs ∧
        (cs.map chunkOutput).flatten = output := by
  induction hspec with
  | nil =>
    intro f _
    refine ⟨[], ?_, rfl⟩
    cases f <;> rfl
  | @rep tag b rest out h128 _ ih =>
    intro f hlen
    simp only [List.length_cons] at hlen
    obtain ⟨f2, rfl⟩ : ∃ f2, f = f2 + 1 := ⟨f - 1, by omega⟩
    obtain ⟨cs2, hp2, hout2⟩ := ih f2 (by omega)
    refine ⟨Chunk.rep b (tag - 125) :: cs2, ?_, ?_⟩
    · simp [parseChunksF, h128, hp2]
    · simp [chunkOutput, hout2]
  | @lit tag d rest out hlt hdlen _ ih =>
    intro f hlen
    simp only [List.length_cons, List.length_append] at hlen
    obtain ⟨f2, rfl⟩ : ∃ f2, f = f2 + 1 := ⟨f - 1, by omega⟩
    obtain ⟨cs2, hp2, hout2⟩ := ih f2 (by omega)
    refine ⟨Chunk.lit d :: cs2, ?_, ?_⟩
    · match d, hdlen with
      | d0 :: ds, hdlen =>
        rw [List.cons_append, parseChunksF_succ_eq]
        rw [if_neg (Nat.not_le.mpr hlt)]
        have hcond : tag + 1 ≤ (d0 :: (ds ++ rest)).length := by
          simp only [List.length_cons, List.length_append]
          simp only [List.length_cons] at hdlen
          omega
        rw [if_pos hcond]
        rw [← List.cons_append, List.take_left' hdlen, List.drop_left' hdlen,
          hp2]
        rfl
    · simp [chunkOutput, hout2]

/-! ## Lemmas about association lists, `maxByKey` and the resolver -/

/-- Evaluation of `assocGet` on a cons cell. -/
theorem assocGet_cons {κ α : Type} [DecidableEq κ] (k1 : κ) (v1 : α)
    (l : List (κ × α)) (k : κ) :
    assocGet ((k1, v1) :: l) k = if k1 = k then some v1 else assocGet l k := by
  by_cases h : k1 = k <;> simp [assocGet, List.find?_cons, h]

/-- Evaluation of `assocGet` on an appended list: the first list wins. -/
theorem assocGet_append {κ α : Type} [DecidableEq κ] (l1 l2 : List (κ × α))
    (k : κ) :
    assocGet (l1 ++ l2) k =
      match assocGet l1 k with
      | some v => some v
      | none => assocGet l2 k := by
  induction l1 with
  | nil => simp [assocGet]
  | cons p l1 ih =>
    rcases p with ⟨k1, v1⟩
    by_cases h : k1 = k
    · simp [assocGet_cons, h]
    · simp only [List.cons_append, assocGet_cons, if_neg h]
      exact ih

/-- A key has a value exactly when it occurs among the keys. -/
theorem assocGet_isSome_iff {κ α : Type} [DecidableEq κ]
    (m : List (κ × α)) (k : κ) :
    (assocGet m k).isSome ↔ k ∈ m.map Prod.fst := by
  induction m with
  | nil => simp [assocGet]
  | cons p m ih =>
    rcases p with ⟨k1, v1⟩
    by_cases h : k1 = k
    · simp [assocGet_cons, h]
    · simp only [assocGet_cons, if_neg h, List.map_cons, List.mem_cons, ih]
      constructor
      · exact Or.inr
      · rintro (rfl | hmem)
        · exact absurd rfl h
        · exact hmem

/-- The fold inside `maxByKey` returns the accumulator or a list member,
and its key dominates the accumulator and every list member. -/
theorem maxByKey_aux {α : Type} (key : α → Nat) :
    ∀ (xs : List α) (acc : α),
      (xs.foldl (fun a y => if key a < key y then y else a) acc = acc ∨
        xs.foldl (fun a y => if key a < key y then y else a) acc ∈ xs) ∧
      key acc ≤ key (xs.foldl (fun a y => if key a < key y then y else a) acc) ∧
      ∀ y ∈ xs, key y ≤ key (xs.foldl (fun a y => if key a < key y then y else a) acc) := by
  intro xs
  induction xs with
  | nil => intro acc; exact ⟨Or.inl rfl, le_refl _, by simp⟩
  | cons z zs ih =>
    intro acc
    simp only [List.foldl_cons]
    obtain ⟨hmem, hacc, hall⟩ := ih (if key acc < key z then z else acc)
    refine ⟨?_, ?_, ?_⟩
    · rcases hmem with h | h
      · rw [h]
        by_cases hc : key acc < key z
        · rw [if_pos hc]
          exact Or.inr (List.mem_cons_self z zs)
        · rw [if_neg hc]
          exact Or.inl rfl
      · exact Or.inr (List.mem_cons_of_mem z h)
    · refine le_trans ?_ hacc
      by_cases hc : key acc < key z
      · rw [if_pos hc]
        exact le_of_lt hc
      · rw [if_neg hc]
    · intro y hy
      rcases List.mem_cons.mp hy with rfl | hy2
      · refine le_trans ?_ hacc
        by_cases hc : key acc < key y
        · rw [if_pos hc]
        · rw [if_neg hc]
          exact Nat.le_of_not_lt hc
      · exact hall y hy2

/-- A `maxByKey` result is a member of the list. -/
theorem maxByKey_mem {α : Type} (key : α → Nat) (l : List α) (x : α)
    (h : maxByKey key l = some x) : x ∈ l := by
  cases l with
  | nil => exact Option.noConfusion h
  | cons z zs =>
    simp only [maxByKey, Option.some.injEq] at h
    subst h
    rcases (maxByKey_aux key zs z).1 with h | h
    · rw [h]
      exact List.mem_cons_self _ _
    · exact List.mem_cons_of_mem _ h

/-- A `maxByKey` result has a maximal key. -/
theorem maxByKey_le {α : Type} (key : α → Nat) (l : List α) (x : α)
    (h : maxByKey key l = some x) : ∀ y ∈ l, key y ≤ key x := by
  cases l with
  | nil => exact Option.noConfusion h
  | cons z zs =>
    simp only [maxByKey, Option.some.injEq] at h
    subst h
    intro y hy
    rcases List.mem_cons.mp hy with rfl | hy2
    · exact (maxByKey_aux key zs y).2.1
    · exact (maxByKey_aux key zs z).2.2 y hy2

/-- The function `maxByKey` fails exactly on the empty list. -/
theorem maxByKey_eq_none {α : Type} (key : α → Nat) (l : List α) :
    maxByKey key l = none ↔ l = [] := by
  cases l <;> simp [maxByKey]

/-- The inner dictionary returned by the `defaultdict` access. -/
theorem ddGetItem_fst (idx : List (Resolution × List (DataType × ElementM)))
    (res : Resolution) :
    (ddGetItem idx res).1 = (assocGet idx res).getD [] := by
  unfold ddGetItem
  cases h : assocGet idx res <;> simp

/-- The `defaultdict` access only ever adds an empty inner dictionary, so
every lookup through it is unchanged. -/
theorem ddGetItem_snd_lookup (idx : List (Resolution × List (DataType × ElementM)))
    (res res2 : Resolution) :
    (assocGet (ddGetItem idx res).2 res2).getD [] =
      (assocGet idx res2).getD [] := by
  unfold ddGetItem
  cases h : assocGet idx res with
  | some inner => simp
  | none =>
    simp only []
    rw [assocGet_append]
    cases h2 : assocGet idx res2 with
    | some v => simp
    | none =>
      by_cases he : res = res2
      · subst he
        simp [assocGet_cons]
      · simp [assocGet_cons, he, assocGet]

/-- The result component of the resolver, rewritten through `resolvedAt`:
take the ranked data types available at the resolution, pick the one of
maximal quality, and return its element. -/
theorem best_fst_eq (fam : IconFamilyS) (res : Resolution)
    (ranking : List (DataType × Nat)) :
    (best_element_for_resolution fam res ranking).1 =
      (match maxByKey (fun dt => (assocGet ranking dt).getD 0)
          ((ranking.map Prod.fst).filter
            (fun dt => (resolvedAt fam res dt).isSome)) with
       | none => Except.error LookupErr.keyError
       | some best =>
         match resolvedAt fam res best with
         | some e => Except.ok e
         | none => Except.error LookupErr.keyError) := by
  have hres : ∀ dt, assocGet (ddGetItem fam.elements_by_resolution_and_type res).1 dt =
      resolvedAt fam res dt := by
    intro dt
    rw [ddGetItem_fst]
    rfl
  unfold best_element_for_resolution
  simp only [hres]

/-- A successful resolver call returns the element of an available ranked
data type whose quality number dominates every available ranked type. -/
theorem best_elem_ok (fam : IconFamilyS) (res : Resolution)
    (ranking : List (DataType × Nat)) (e : ElementM)
    (h : (best_element_for_resolution fam res ranking).1 = Except.ok e) :
    ∃ dt, dt ∈ ranking.map Prod.fst ∧ resolvedAt fam res dt = some e ∧
      ∀ dt2 ∈ ranking.map Prod.fst, (resolvedAt fam res dt2).isSome →
        (assocGet ranking dt2).getD 0 ≤ (assocGet ranking dt).getD 0 := by
  rw [best_fst_eq] at h
  split at h
  · exact Except.noConfusion h
  · rename_i best hmax
    split at h
    · rename_i e0 hget
      cases h
      have hmem := maxByKey_mem _ _ _ hmax
      rw [List.mem_filter] at hmem
      refine ⟨best, hmem.1, hget, ?_⟩
      intro dt2 hdt2 hsome
      have hmem2 : dt2 ∈ (ranking.map Prod.fst).filter
          (fun dt => (resolvedAt fam res dt).isSome) :=
        List.mem_filter.mpr ⟨hdt2, hsome⟩
      exact maxByKey_le _ _ _ hmax dt2 hmem2
    · exact Except.noConfusion h

/-- The resolver fails exactly when no ranked data type is available at
the resolution. -/
theorem best_elem_err (fam : IconFamilyS) (res : Resolution)
    (ranking : List (DataType × Nat)) :
    (best_element_for_resolution fam res ranking).1 =
        Except.error LookupErr.keyError ↔
      ∀ dt ∈ ranking.map Prod.fst, resolvedAt fam res dt = none := by
  rw [best_fst_eq]
  constructor
  · intro h dt hdt
    by_contra hne
    have hsome : (resolvedAt fam res dt).isSome :=
      Option.ne_none_iff_isSome.mp hne
    have hmem : dt ∈ (ranking.map Prod.fst).filter
        (fun dt => (resolvedAt fam res dt).isSome) :=
      List.mem_filter.mpr ⟨hdt, hsome⟩
    split at h
    · rename_i hmax
      rw [maxByKey_eq_none] at hmax
      rw [hmax] at hmem
      exact absurd hmem (List.not_mem_nil dt)
    · rename_i best hmax
      split at h
      · exact Except.noConfusion h
      · rename_i hget
        have hbmem := maxByKey_mem _ _ _ hmax
        have hbs : (resolvedAt fam res best).isSome :=
          (List.mem_filter.mp hbmem).2
        rw [hget] at hbs
        exact Bool.noConfusion hbs
  · intro hall
    have hnil : (ranking.map Prod.fst).filter
        (fun dt => (resolvedAt fam res dt).isSome) = [] := by
      rw [List.filter_eq_nil_iff]
      intro dt hdt
      rw [hall dt hdt]
      simp
    rw [hnil]
    rfl

/-! ## Helper lemmas for the pixel decoders -/

/-- The model `frombytesL` succeeds on exact-length data. -/
theorem frombytesL_ok (w h : Nat) (d : List Nat) (hd : d.length = w * h) :
    frombytesL w h d = Except.ok d := by
  unfold frombytesL
  rw [if_pos hd]

/-- The model `frombytesL` fails on any other length. -/
theorem frombytesL_err (w h : Nat) (d : List Nat) (hd : d.length ≠ w * h) :
    frombytesL w h d = Except.error RenderErr.imageDataLengthMismatch := by
  unfold frombytesL
  rw [if_neg hd]

/-- With at least `3 w h` decompressed bytes, the RGB conversion succeeds
on the three plane slices. -/
theorem iconRGBToImage_ok (data : List Nat) (w h : Nat)
    (hlen : 3 * (w * h) ≤ data.length) :
    iconRGBToImage data w h = Except.ok
      (data.take (w * h), (data.drop (w * h)).take (w * h),
       (data.drop (2 * (w * h))).take (w * h)) := by
  have h1 : (data.take (w * h)).length = w * h := by
    rw [List.length_take]; omega
  have h2 : ((data.drop (w * h)).take (w * h)).length = w * h := by
    rw [List.length_take, List.length_drop]; omega
  have h3 : ((data.drop (2 * (w * h))).take (w * h)).length = w * h := by
    rw [List.length_take, List.length_drop]; omega
  simp only [iconRGBToImage]
  rw [frombytesL_ok _ _ _ h1, frombytesL_ok _ _ _ h2, frombytesL_ok _ _ _ h3]

/-- With at least `4 w h` decompressed bytes, the ARGB conversion
succeeds on the four plane slices (returned as red, green, blue,
alpha). -/
theorem iconARGBToImage_ok (data : List Nat) (w h : Nat)
    (hlen : 4 * (w * h) ≤ data.length) :
    iconARGBToImage data w h = Except.ok
      ((data.drop (w * h)).take (w * h), (data.drop (2 * (w * h))).take (w * h),
       (data.drop (3 * (w * h))).take (w * h), data.take (w * h)) := by
  have h1 : (data.take (w * h)).length = w * h := by
    rw [List.length_take]; omega
  have h2 : ((data.drop (w * h)).take (w * h)).length = w * h := by
    rw [List.length_take, List.length_drop]; omega
  have h3 : ((data.drop (2 * (w * h))).take (w * h)).length = w * h := by
    rw [List.length_take, List.length_drop]; omega
  have h4 : ((data.drop (3 * (w * h))).take (w * h)).length = w * h := by
    rw [List.length_take, List.length_drop]; omega
  simp only [iconARGBToImage]
  rw [frombytesL_ok _ _ _ h1, frombytesL_ok _ _ _ h2, frombytesL_ok _ _ _ h3,
    frombytesL_ok _ _ _ h4]

/-- Reading inside a `take` below the cut is reading the original. -/
theorem getD_take (data : List Nat) (c i : Nat) (hi : i < c) :
    (data.take c).getD i 0 = data.getD i 0 := by
  rw [List.getD_eq_getElem?_getD, List.getD_eq_getElem?_getD,
    List.getElem?_take_of_lt hi]

/-- Reading inside a `drop`-then-`take` slice is reading the original at
the slice offset. -/
theorem getD_slice (data : List Nat) (off c i : Nat) (hi : i < c) :
    ((data.drop off).take c).getD i 0 = data.getD (off + i) 0 := by
  rw [List.getD_eq_getElem?_getD, List.getD_eq_getElem?_getD,
    List.getElem?_take_of_lt hi, List.getElem?_drop]

/-- Row-major pixel positions lie inside one plane. -/
theorem row_major_lt {x w y h : Nat} (hx : x < w) (hy : y < h) :
    y * w + x < w * h := by
  calc y * w + x < y * w + w := by omega
    _ = (y + 1) * w := by ring
    _ ≤ h * w := Nat.mul_le_mul_right w hy
    _ = w * h := Nat.mul_comm h w

/-! ## The claim theorems -/

/-- C1: for every input to the RLE decompressor, the stream is consumed
as a sequence of chunks — a tag byte of at least 128 is a repeat chunk
whose one following byte is appended to the output `tag - 125` times, and
a tag byte below 128 is a literal chunk whose following `tag + 1` bytes
are copied verbatim — and the output is the concatenation of the chunk
contributions in order. -/
theorem rle_decompress_iff_spec (input output : List Nat) :
    decompress input = some output ↔ RLESpec input output := by
  constructor
  · intro h
    unfold decompress at h
    cases hp : parseChunksF input.length input with
    | none => rw [hp] at h; exact Option.noConfusion h
    | some cs =>
      rw [hp] at h
      simp only [Option.map_some', Option.some.injEq] at h
      subst h
      exact parseChunksF_sound _ _ _ le_rfl hp
  · intro h
    obtain ⟨cs, hp, hout⟩ := RLESpec_complete h input.length le_rfl
    unfold decompress
    rw [hp]
    simp [hout]

/-- Witness for C1: the specification's literal example — tag byte 2
followed by three bytes copies them verbatim — via the equivalence at a
concrete input. -/
theorem rle_decompress_iff_spec_witness : RLESpec [2, 9, 8, 7] [9, 8, 7] :=
  (rle_decompress_iff_spec [2, 9, 8, 7] [9, 8, 7]).mp (by decide)

/-- C2 counterexample: an element with an unregistered type code does not
resolve to an `Unknown` payload — `IconFamilyElement.parsed` raises
`AssertionError` because the `isinstance` chain has no case for the raw
byte passthrough. -/
theorem unknown_type_parsed_errors_cex :
    lookupTypecode [0, 1, 2, 3] = none ∧
    parsedElement [0, 1, 2, 3] [42] = Except.error Err.assertionUnhandled :=
  ⟨by decide, by decide⟩

/-- Every type code handled by the `data_parsed` switch occurs in the
registry, so unregistered codes always reach the passthrough branch. -/
theorem dispatch_keys_registered :
    (dispatchTable.map Prod.fst).all
      (fun k => (registry.find? (fun e => decide (e.typecode = k))).isSome) = true := by
  decide

/-- For an unregistered type code, the Kaitai-level `data_parsed` is the
raw byte passthrough. -/
theorem elementDataParsed_unknown (tc body : List Nat)
    (h : lookupTypecode tc = none) :
    elementDataParsed tc body = Except.ok (KSData.unknownBytes body) := by
  have hfind : dispatchTable.find? (fun p => decide (p.1 = tc)) = none := by
    rw [List.find?_eq_none]
    intro p hp
    simp only [decide_eq_true_eq]
    intro heq
    have hk : p.1 ∈ dispatchTable.map Prod.fst := List.mem_map_of_mem Prod.fst hp
    have hall := List.all_eq_true.mp dispatch_keys_registered _ hk
    rw [heq] at hall
    unfold lookupTypecode at h
    rw [h] at hall
    exact Bool.noConfusion hall
  unfold elementDataParsed
  rw [hfind]

/-- C2 (amended): for every element whose type code is absent from the
registry, the Kaitai-level decode succeeds and preserves the raw body
byte for byte (the data passthrough), but the API-level payload
resolution `IconFamilyElement.parsed` fails with `AssertionError`
instead of returning an `Unknown` payload — matching its docstring,
which says `parsed` cannot be accessed for unrecognized types. -/
theorem unknown_type_decode_amended (tc body : List Nat)
    (h : lookupTypecode tc = none) :
    elementDataParsed tc body = Except.ok (KSData.unknownBytes body) ∧
    parsedElement tc body = Except.error Err.assertionUnhandled := by
  have h1 := elementDataParsed_unknown tc body h
  refine ⟨h1, ?_⟩
  unfold parsedElement
  rw [h1]

/-- Witness for C2 (amended), at a concrete unregistered type code. -/
theorem unknown_type_decode_amended_witness :
    elementDataParsed [0, 1, 2, 4] [5, 6] =
      Except.ok (KSData.unknownBytes [5, 6]) ∧
    parsedElement [0, 1, 2, 4] [5, 6] = Except.error Err.assertionUnhandled :=
  unknown_type_decode_amended [0, 1, 2, 4] [5, 6] (by decide)

/-- C3 counterexample: a well-formed minimal stream decodes, but the same
stream with one trailing byte fails with the `data_parsed` eof
validation instead of being accepted. -/
theorem trailing_bytes_error_cex :
    from_stream [105, 99, 110, 115, 0, 0, 0, 8] = Except.ok (mkIconFamily []) ∧
    from_stream [105, 99, 110, 115, 0, 0, 0, 8, 0] =
      Except.error Err.validationExpr :=
  ⟨by decide, by decide⟩

/-- C3 (amended): for every input holding one well-formed top-level
`icns` element followed by trailing bytes, `IconFamily.from_stream`
fails with the `ValidationExprError` of the root element's `data_parsed`
eof check (which reads the stream the root element came from — the whole
input) rather than ignoring the extra bytes. -/
theorem trailing_bytes_amended (input : List Nat) (elem : ElementM)
    (rest : List Nat) (ksd : KSData)
    (hdec : decodeElement input = Except.ok (elem, rest))
    (htc : elem.type = mainFamilyCode)
    (hparse : elementDataParsed elem.type elem.data = Except.ok ksd)
    (hrest : rest ≠ []) :
    from_stream input = Except.error Err.validationExpr := by
  have hparse2 : elementDataParsed mainFamilyCode elem.data = Except.ok ksd := by
    rw [← htc]
    exact hparse
  cases rest with
  | nil => exact absurd rfl hrest
  | cons b bs => simp [from_stream, hdec, htc, hparse2]

/-- Witness for C3 (amended), at a concrete input with one trailing
byte. -/
theorem trailing_bytes_amended_witness :
    from_stream [105, 99, 110, 115, 0, 0, 0, 8, 7] =
      Except.error Err.validationExpr :=
  trailing_bytes_amended _ ⟨[105, 99, 110, 115], []⟩ [7] (KSData.family [])
    (by decide) (by decide) (by decide) (by decide)

/-- C4 (registry/parser divergence at `icnV`): the registry assigns the
`icnV` type code the table-of-contents category (`element_types.py` line
167, although `DataType.icon_composer_version` exists and is used
nowhere), while the `data_parsed` switch parses an `icnV` body as an
Icon Composer version — exactly 4 bytes of a big-endian float — and a
fifth body byte is tolerated because the post-parse eof validation
checks the element's outer stream instead of its body substream.  The
`TOC ` code is parsed as repeated 8-byte headers, a leftover that is not
a multiple of 8 being an error. -/
theorem icnV_registry_vs_parser_bug :
    lookupTypecode [105, 99, 110, 86] =
      some ⟨[105, 99, 110, 86], DataType.table_of_contents, none⟩ ∧
    elementDataParsed [105, 99, 110, 86] [64, 160, 0, 0, 99] =
      Except.ok (KSData.composerVersion [64, 160, 0, 0]) ∧
    elementDataParsed [84, 79, 67, 32] [116, 101, 115, 116, 0, 0, 0, 16] =
      Except.ok (KSData.toc [([116, 101, 115, 116], 16)]) ∧
    elementDataParsed [84, 79, 67, 32] [1, 2, 3] =
      Except.error Err.truncatedHeader :=
  ⟨by decide, by decide, by decide, by decide⟩

/-- C5: `icon_element_for_resolution` returns the element whose data type
has the highest quality number among the ranked types present at the
requested resolution, and fails with `KeyError` exactly when none is
present; `mask_element_for_resolution` considers only the
1-bit-with-mask and 8-bit-mask categories (never ARGB or PNG/JPEG 2000),
prefers the 8-bit mask, and fails exactly when neither is present. -/
theorem best_element_selection_spec (fam : IconFamilyS) (res : Resolution) :
    (∀ e, (icon_element_for_resolution fam res).1 = Except.ok e →
      ∃ dt q, assocGet ICON_TYPE_QUALITIES dt = some q ∧
        resolvedAt fam res dt = some e ∧
        ∀ dt2 q2, assocGet ICON_TYPE_QUALITIES dt2 = some q2 →
          (resolvedAt fam res dt2).isSome → q2 ≤ q) ∧
    ((icon_element_for_resolution fam res).1 = Except.error LookupErr.keyError ↔
      ∀ dt, (assocGet ICON_TYPE_QUALITIES dt).isSome →
        resolvedAt fam res dt = none) ∧
    (∀ e, (mask_element_for_resolution fam res).1 = Except.ok e →
      resolvedAt fam res DataType.icon_8_bit_mask = some e ∨
        (resolvedAt fam res DataType.icon_8_bit_mask = none ∧
          resolvedAt fam res DataType.icon_1_bit_with_mask = some e)) ∧
    ((mask_element_for_resolution fam res).1 = Except.error LookupErr.keyError ↔
      resolvedAt fam res DataType.icon_1_bit_with_mask = none ∧
      resolvedAt fam res DataType.icon_8_bit_mask = none) := by
  refine ⟨?_, ?_, ?_, ?_⟩
  · intro e h
    obtain ⟨dt, hdt, hres, hmaxim⟩ := best_elem_ok fam res ICON_TYPE_QUALITIES e h
    have hq : (assocGet ICON_TYPE_QUALITIES dt).isSome :=
      (assocGet_isSome_iff _ _).mpr hdt
    obtain ⟨q, hq2⟩ := Option.isSome_iff_exists.mp hq
    refine ⟨dt, q, hq2, hres, ?_⟩
    intro dt2 q2 hq3 hsome
    have hdt2 : dt2 ∈ ICON_TYPE_QUALITIES.map Prod.fst :=
      (assocGet_isSome_iff _ _).mp (by rw [hq3]; rfl)
    have := hmaxim dt2 hdt2 hsome
    rw [hq2, hq3] at this
    simpa using this
  · have h2 := best_elem_err fam res ICON_TYPE_QUALITIES
    constructor
    · intro h dt hdts
      exact h2.mp h dt ((assocGet_isSome_iff _ _).mp hdts)
    · intro hall
      exact h2.mpr (fun dt hdt => hall dt ((assocGet_isSome_iff _ _).mpr hdt))
  · intro e h
    obtain ⟨dt, hdt, hres, hmaxim⟩ := best_elem_ok fam res MASK_TYPE_QUALITIES e h
    have hdt2 : dt = DataType.icon_1_bit_with_mask ∨
        dt = DataType.icon_8_bit_mask := by
      simpa [MASK_TYPE_QUALITIES] using hdt
    rcases hdt2 with rfl | rfl
    · right
      refine ⟨?_, hres⟩
      by_contra hne
      have hsome : (resolvedAt fam res DataType.icon_8_bit_mask).isSome :=
        Option.ne_none_iff_isSome.mp hne
      have hle := hmaxim DataType.icon_8_bit_mask (by decide) hsome
      have e1 : assocGet MASK_TYPE_QUALITIES DataType.icon_8_bit_mask = some 2 := by
        decide
      have e2 : assocGet MASK_TYPE_QUALITIES DataType.icon_1_bit_with_mask =
          some 1 := by decide
      rw [e1, e2] at hle
      simp at hle
    · left
      exact hres
  · have h4 := best_elem_err fam res MASK_TYPE_QUALITIES
    constructor
    · intro h
      exact ⟨h4.mp h _ (by decide), h4.mp h _ (by decide)⟩
    · rintro ⟨h1, h8⟩
      refine h4.mpr ?_
      intro dt hdt
      have hdt2 : dt = DataType.icon_1_bit_with_mask ∨
          dt = DataType.icon_8_bit_mask := by
        simpa [MASK_TYPE_QUALITIES] using hdt
      rcases hdt2 with rfl | rfl
      · exact h1
      · exact h8

/-- Witness for C5: a family holding an 8-bit and an RGB icon at 16 x 16
selects the RGB element; the failing components are exercised on a
family without elements. -/
theorem best_element_selection_spec_witness :
    (icon_element_for_resolution
      (mkIconFamily (buildElements
        [⟨[105, 99, 115, 56], [7]⟩, ⟨[105, 115, 51, 50], [8]⟩])) ⟨16, 16, 1⟩).1 =
      Except.ok ⟨[105, 115, 51, 50], [8]⟩ ∧
    (∃ dt q, assocGet ICON_TYPE_QUALITIES dt = some q ∧
      resolvedAt (mkIconFamily (buildElements
        [⟨[105, 99, 115, 56], [7]⟩, ⟨[105, 115, 51, 50], [8]⟩])) ⟨16, 16, 1⟩ dt =
        some ⟨[105, 115, 51, 50], [8]⟩ ∧
      ∀ dt2 q2, assocGet ICON_TYPE_QUALITIES dt2 = some q2 →
        (resolvedAt (mkIconFamily (buildElements
          [⟨[105, 99, 115, 56], [7]⟩, ⟨[105, 115, 51, 50], [8]⟩])) ⟨16, 16, 1⟩
            dt2).isSome → q2 ≤ q) ∧
    (mask_element_for_resolution (mkIconFamily []) ⟨16, 16, 1⟩).1 =
      Except.error LookupErr.keyError :=
  ⟨by decide,
   (best_element_selection_spec _ _).1 ⟨[105, 115, 51, 50], [8]⟩ (by decide),
   ((best_element_selection_spec (mkIconFamily []) ⟨16, 16, 1⟩).2.2.2).mpr
     ⟨by decide, by decide⟩⟩

/-- C6: the RLE-decompressed data of a 24-bit RGB bitmap is read as three
`w * h`-byte planes concatenated in red, green, blue order — pixel
`(x, y)` takes its channels from offsets `i`, `w * h + i` and
`2 * w * h + i` with `i = y * w + x` — and an ARGB payload as four planes
in alpha, red, green, blue order. -/
theorem plane_order_pixels :
    (∀ (data : List Nat) (w h x y : Nat), x < w → y < h →
      3 * (w * h) ≤ data.length →
      ∃ img, iconRGBToImage data w h = Except.ok img ∧
        rgbPixel img (y * w + x) =
          (data.getD (y * w + x) 0, data.getD (w * h + (y * w + x)) 0,
           data.getD (2 * (w * h) + (y * w + x)) 0)) ∧
    (∀ (data : List Nat) (w h x y : Nat), x < w → y < h →
      4 * (w * h) ≤ data.length →
      ∃ img, iconARGBToImage data w h = Except.ok img ∧
        argbPixel img (y * w + x) =
          (data.getD (w * h + (y * w + x)) 0,
           data.getD (2 * (w * h) + (y * w + x)) 0,
           data.getD (3 * (w * h) + (y * w + x)) 0,
           data.getD (y * w + x) 0)) := by
  constructor
  · intro data w h x y hx hy hlen
    refine ⟨_, iconRGBToImage_ok data w h hlen, ?_⟩
    have hi := row_major_lt hx hy
    show ((data.take (w * h)).getD (y * w + x) 0,
        ((data.drop (w * h)).take (w * h)).getD (y * w + x) 0,
        ((data.drop (2 * (w * h))).take (w * h)).getD (y * w + x) 0) = _
    rw [getD_take _ _ _ hi, getD_slice _ _ _ _ hi, getD_slice _ _ _ _ hi]
  · intro data w h x y hx hy hlen
    refine ⟨_, iconARGBToImage_ok data w h hlen, ?_⟩
    have hi := row_major_lt hx hy
    show (((data.drop (w * h)).take (w * h)).getD (y * w + x) 0,
        ((data.drop (2 * (w * h))).take (w * h)).getD (y * w + x) 0,
        ((data.drop (3 * (w * h))).take (w * h)).getD (y * w + x) 0,
        (data.take (w * h)).getD (y * w + x) 0) = _
    rw [getD_slice _ _ _ _ hi, getD_slice _ _ _ _ hi, getD_slice _ _ _ _ hi,
      getD_take _ _ _ hi]

/-- Witness for C6: the specification's 2 x 1 example — decompressed
bytes 0x10..0x60 give pixel (1, 0) channels 0x20, 0x40, 0x60 — and a
1 x 1 ARGB example. -/
theorem plane_order_pixels_witness :
    (∃ img, iconRGBToImage [16, 32, 48, 64, 80, 96] 2 1 = Except.ok img ∧
      rgbPixel img (0 * 2 + 1) =
        ([16, 32, 48, 64, 80, 96].getD (0 * 2 + 1) 0,
         [16, 32, 48, 64, 80, 96].getD (2 * 1 + (0 * 2 + 1)) 0,
         [16, 32, 48, 64, 80, 96].getD (2 * (2 * 1) + (0 * 2 + 1)) 0)) ∧
    (∃ img, iconARGBToImage [1, 2, 3, 4] 1 1 = Except.ok img ∧
      argbPixel img (0 * 1 + 0) =
        ([1, 2, 3, 4].getD (1 * 1 + (0 * 1 + 0)) 0,
         [1, 2, 3, 4].getD (2 * (1 * 1) + (0 * 1 + 0)) 0,
         [1, 2, 3, 4].getD (3 * (1 * 1) + (0 * 1 + 0)) 0,
         [1, 2, 3, 4].getD (0 * 1 + 0) 0)) :=
  ⟨plane_order_pixels.1 [16, 32, 48, 64, 80, 96] 2 1 1 0
      (by decide) (by decide) (by decide),
   plane_order_pixels.2 [1, 2, 3, 4] 1 1 0 0
      (by decide) (by decide) (by decide)⟩

/-- C7: element decoding fails with `TruncatedHeader` when fewer than 8
bytes are available, with `InvalidLength` when the declared length is
below 8, with `TruncatedBody` when fewer than `declared_length - 8` body
bytes remain, and `from_stream` fails with `NotAnIconFamily` when the
top-level element's type code is not `icns`. -/
theorem element_decode_errors (input : List Nat) :
    (input.length < 8 →
      decodeElement input = Except.error Err.truncatedHeader) ∧
    (8 ≤ input.length → u4be ((input.drop 4).take 4) < 8 →
      decodeElement input = Except.error Err.invalidLength) ∧
    (8 ≤ input.length → 8 ≤ u4be ((input.drop 4).take 4) →
      input.length < u4be ((input.drop 4).take 4) →
      decodeElement input = Except.error Err.truncatedBody) ∧
    (∀ elem rest, decodeElement input = Except.ok (elem, rest) →
      elem.type ≠ mainFamilyCode →
      from_stream input = Except.error Err.notAnIconFamily) := by
  refine ⟨?_, ?_, ?_, ?_⟩
  · intro hlt
    simp only [decodeElement]
    by_cases h4 : 4 ≤ input.length
    · rw [if_pos h4, if_neg (by rw [List.length_drop]; omega)]
    · rw [if_neg h4]
  · intro h8 hlen
    simp only [decodeElement]
    rw [if_pos (by omega), if_pos (by rw [List.length_drop]; omega),
      if_pos hlen]
  · intro h8 hge hlt
    simp only [decodeElement]
    rw [if_pos (by omega), if_pos (by rw [List.length_drop]; omega),
      if_neg (by omega),
      if_neg (by rw [List.length_drop, List.length_drop]; omega)]
  · intro elem rest hok hne
    simp [from_stream, hok, hne]

/-- Witness for C7, at concrete truncated, invalid-length, truncated-body
and non-`icns` inputs. -/
theorem element_decode_errors_witness :
    decodeElement [1, 2, 3] = Except.error Err.truncatedHeader ∧
    decodeElement [1, 2, 3, 4, 0, 0, 0, 0] = Except.error Err.invalidLength ∧
    decodeElement [1, 2, 3, 4, 0, 0, 3, 232, 7, 7] =
      Except.error Err.truncatedBody ∧
    from_stream [116, 105, 108, 101, 0, 0, 0, 8] =
      Except.error Err.notAnIconFamily :=
  ⟨(element_decode_errors [1, 2, 3]).1 (by decide),
   (element_decode_errors [1, 2, 3, 4, 0, 0, 0, 0]).2.1 (by decide) (by decide),
   (element_decode_errors [1, 2, 3, 4, 0, 0, 3, 232, 7, 7]).2.2.1
     (by decide) (by decide) (by decide),
   (element_decode_errors [116, 105, 108, 101, 0, 0, 0, 8]).2.2.2
     ⟨[116, 105, 108, 101], []⟩ [] (by decide) (by decide)⟩

/-- C8 counterexample: a 1 x 1 RGB payload whose decompressed length is 4
instead of `3 * 1 * 1 = 3` renders successfully — the extra byte is
silently ignored — instead of failing with a length mismatch. -/
theorem rgb_length_mismatch_cex :
    decompress [3, 1, 2, 3, 4] = some [1, 2, 3, 4] ∧
    iconRGBRender [3, 1, 2, 3, 4] 1 1 = Except.ok ([1], [2], [3]) :=
  ⟨by decide, by decide⟩

/-- C8 (amended): a decompressed RGB payload shorter than `3 w h` bytes
(resp. `4 w h` for ARGB) fails with the not-enough-image-data error of
the underlying image library, while longer decompressed data is silently
truncated to the leading planes and is not an error. -/
theorem rgb_argb_length_amended (compressed : List Nat) (w h : Nat)
    (u : List Nat) (hdec : decompress compressed = some u) :
    (3 * (w * h) ≤ u.length → iconRGBRender compressed w h = Except.ok
        (u.take (w * h), (u.drop (w * h)).take (w * h),
         (u.drop (2 * (w * h))).take (w * h))) ∧
    (u.length < 3 * (w * h) → iconRGBRender compressed w h =
        Except.error RenderErr.imageDataLengthMismatch) ∧
    (4 * (w * h) ≤ u.length → iconARGBRender compressed w h = Except.ok
        ((u.drop (w * h)).take (w * h), (u.drop (2 * (w * h))).take (w * h),
         (u.drop (3 * (w * h))).take (w * h), u.take (w * h))) ∧
    (u.length < 4 * (w * h) → iconARGBRender compressed w h =
        Except.error RenderErr.imageDataLengthMismatch) := by
  have hrw : iconRGBRender compressed w h = iconRGBToImage u w h := by
    unfold iconRGBRender
    rw [hdec]
  have haw : iconARGBRender compressed w h = iconARGBToImage u w h := by
    unfold iconARGBRender
    rw [hdec]
  refine ⟨?_, ?_, ?_, ?_⟩
  · intro hlen
    rw [hrw]
    exact iconRGBToImage_ok u w h hlen
  · intro hlen
    rw [hrw]
    simp only [iconRGBToImage]
    by_cases h1 : u.length < w * h
    · rw [frombytesL_err _ _ _ (by rw [List.length_take]; omega)]
    · by_cases h2 : u.length < 2 * (w * h)
      · rw [frombytesL_ok _ _ _ (by rw [List.length_take]; omega),
          frombytesL_err _ _ _ (by rw [List.length_take, List.length_drop]; omega)]
      · rw [frombytesL_ok _ _ _ (by rw [List.length_take]; omega),
          frombytesL_ok _ _ _ (by rw [List.length_take, List.length_drop]; omega),
          frombytesL_err _ _ _ (by rw [List.length_take, List.length_drop]; omega)]
  · intro hlen
    rw [haw]
    exact iconARGBToImage_ok u w h hlen
  · intro hlen
    rw [haw]
    simp only [iconARGBToImage]
    by_cases h1 : u.length < w * h
    · rw [frombytesL_err _ _ _ (by rw [List.length_take]; omega)]
    · by_cases h2 : u.length < 2 * (w * h)
      · rw [frombytesL_ok _ _ _ (by rw [List.length_take]; omega),
          frombytesL_err _ _ _ (by rw [List.length_take, List.length_drop]; omega)]
      · by_cases h3 : u.length < 3 * (w * h)
        · rw [frombytesL_ok _ _ _ (by rw [List.length_take]; omega),
            frombytesL_ok _ _ _ (by rw [List.length_take, List.length_drop]; omega),
            frombytesL_err _ _ _ (by rw [List.length_take, List.length_drop]; omega)]
        · rw [frombytesL_ok _ _ _ (by rw [List.length_take]; omega),
            frombytesL_ok _ _ _ (by rw [List.length_take, List.length_drop]; omega),
            frombytesL_ok _ _ _ (by rw [List.length_take, List.length_drop]; omega),
            frombytesL_err _ _ _ (by rw [List.length_take, List.length_drop]; omega)]

/-- Witness for C8 (amended): the repeat chunk `0x83 0x09` decompresses
to six bytes, enough for a 1 x 2 RGB image and a 1 x 1 ARGB image with
surplus. -/
theorem rgb_argb_length_amended_witness :
    iconRGBRender [131, 9] 1 2 = Except.ok
      ([9, 9, 9, 9, 9, 9].take (1 * 2),
       ([9, 9, 9, 9, 9, 9].drop (1 * 2)).take (1 * 2),
       ([9, 9, 9, 9, 9, 9].drop (2 * (1 * 2))).take (1 * 2)) ∧
    iconARGBRender [131, 9] 1 1 = Except.ok
      (([9, 9, 9, 9, 9, 9].drop (1 * 1)).take (1 * 1),
       ([9, 9, 9, 9, 9, 9].drop (2 * (1 * 1))).take (1 * 1),
       ([9, 9, 9, 9, 9, 9].drop (3 * (1 * 1))).take (1 * 1),
       [9, 9, 9, 9, 9, 9].take (1 * 1)) :=
  ⟨(rgb_argb_length_amended [131, 9] 1 2 [9, 9, 9, 9, 9, 9] (by decide)).1
      (by decide),
   (rgb_argb_length_amended [131, 9] 1 1 [9, 9, 9, 9, 9, 9] (by decide)).2.2.1
      (by decide)⟩

/-- C9 counterexample: a failing best-icon lookup on a family without
elements inserts an empty entry for the requested resolution into
`elements_by_resolution_and_type` (a `defaultdict`), changing the
family's observable state. -/
theorem family_lookup_mutates_index_cex :
    (icon_element_for_resolution (mkIconFamily []) ⟨16, 16, 1⟩).2 ≠
      mkIconFamily [] := by
  decide

/-- C9 (amended): a best-icon or best-mask lookup never changes the
`elements` dictionary and never changes the result of any
resolution-and-type index lookup (so all later lookups behave as
before); the only state change is that a lookup for a resolution absent
from the index appends an empty entry for it (the `defaultdict`
access). -/
theorem family_lookup_preserves_observations (fam : IconFamilyS)
    (res : Resolution) :
    ((icon_element_for_resolution fam res).2.elements = fam.elements ∧
      ∀ res2 dt, resolvedAt (icon_element_for_resolution fam res).2 res2 dt =
        resolvedAt fam res2 dt) ∧
    ((mask_element_for_resolution fam res).2.elements = fam.elements ∧
      ∀ res2 dt, resolvedAt (mask_element_for_resolution fam res).2 res2 dt =
        resolvedAt fam res2 dt) := by
  have key : ∀ ranking : List (DataType × Nat),
      (best_element_for_resolution fam res ranking).2.elements = fam.elements ∧
      ∀ res2 dt,
        resolvedAt (best_element_for_resolution fam res ranking).2 res2 dt =
          resolvedAt fam res2 dt := by
    intro ranking
    refine ⟨rfl, ?_⟩
    intro res2 dt
    show assocGet ((assocGet (ddGetItem fam.elements_by_resolution_and_type
        res).2 res2).getD []) dt =
      assocGet ((assocGet fam.elements_by_resolution_and_type res2).getD []) dt
    rw [ddGetItem_snd_lookup]
  exact ⟨key ICON_TYPE_QUALITIES, key MASK_TYPE_QUALITIES⟩

/-- C10: the PNG and JPEG 2000 signature predicates are mutually
exclusive (no body satisfies both, their signatures differing in the
first byte), both are total, and both being false is possible — the
empty body. -/
theorem png_jp2_predicates_exclusive :
    (∀ data : List Nat, (is_png data && is_jpeg_2000 data) = false) ∧
    is_png [] = false ∧ is_jpeg_2000 [] = false := by
  refine ⟨?_, rfl, rfl⟩
  intro data
  cases hp : is_png data
  · simp
  · cases hj : is_jpeg_2000 data
    · simp
    · exfalso
      unfold is_png at hp
      unfold is_jpeg_2000 at hj
      have hp2 : [137, 80, 78, 71, 13, 10, 26, 10] <+: data :=
        List.isPrefixOf_iff_prefix.mp hp
      have hj2 : [0, 0, 0, 12, 106, 80, 32, 32, 13, 10, 135, 10] <+: data :=
        List.isPrefixOf_iff_prefix.mp hj
      obtain ⟨t1, ht1⟩ := hp2
      obtain ⟨t2, ht2⟩ := hj2
      have := ht1.trans ht2.symm
      simp at this

end IcnsModel
